import Mathlib

/-!
Verification of the payment/billing reconciliation core of the
eucpayNroll school-billing backend.

The definitions below are a shallow embedding of the route handlers in
src/routes/billing.js and src/routes/payments.js.  The database is a
record of lists of rows; every handler is a pure function from a request
and a database state to a response status and a new database state.
Monetary values are rationals; JS date arithmetic (setMonth with day
overflow) is modelled explicitly.  The two Postgres stored procedures
invoked over RPC (process_payment_transaction and
initialize_account_balance) are not part of the repository sources and
are modelled from the specification, as marked in their doc comments.
-/

namespace EucPay

/-- Calendar date in the JS Date model: absMonth counts months from
year 0 (absMonth = year * 12 + zero-based month), day is 1-based. -/
structure JSDate where
  absMonth : Nat
  day : Nat
  deriving DecidableEq, Repr

/-- Gregorian leap-year test. -/
def isLeap (y : Nat) : Bool :=
  (y % 4 == 0 && y % 100 != 0) || y % 400 == 0

/-- Number of days of the month designated by an absolute month count. -/
def daysInMonth (am : Nat) : Nat :=
  let m := am % 12
  if m = 1 then (if isLeap (am / 12) then 29 else 28)
  else if m = 3 ∨ m = 5 ∨ m = 8 ∨ m = 10 then 30
  else 31

/-- Normalisation step of the JS Date model: a day-of-month that
overflows the month rolls into the following month, exactly as a JS
Date with an out-of-range day component reads back.  One carry step
suffices because setMonth never produces a day above 31. -/
def normalizeDate (d : JSDate) : JSDate :=
  if d.day > daysInMonth d.absMonth then
    { absMonth := d.absMonth + 1, day := d.day - daysInMonth d.absMonth }
  else d

/-- JS dueDate.setMonth(dueDate.getMonth() + i) applied to a fresh copy
of the base date, as generateBilling computes installment due dates. -/
def addMonths (d : JSDate) (i : Nat) : JSDate :=
  normalizeDate { absMonth := d.absMonth + i, day := d.day }

/-- Chronological sort key of a canonical date; ISO date strings compare
in the same order. -/
def dueKey (d : JSDate) : Nat :=
  d.absMonth * 32 + d.day

/-- JS truthy-default idiom x || d for an optional rational column
(parseFloat of a missing column is NaN, which is falsy, and 0 is falsy). -/
def jsOrQ (o : Option ℚ) (d : ℚ) : ℚ :=
  match o with
  | none => d
  | some q => if q = 0 then d else q

/-- JS truthy-default idiom x || d for an optional integer column
(parseInt of a missing column is NaN, which is falsy, and 0 is falsy). -/
def jsOrNat (o : Option Nat) (d : Nat) : Nat :=
  match o with
  | none => d
  | some 0 => d
  | some n => n

/-- JS Math.round(x * 100) / 100, rounding half away from minus
infinity, the 2-decimal rounding used throughout the billing code. -/
def round2 (q : ℚ) : ℚ :=
  ((⌊q * 100 + 1 / 2⌋ : ℤ) : ℚ) / 100

/-- JS Math.max of two rationals, written with an explicit comparison
so that concrete runs reduce. -/
def jsMax (a b : ℚ) : ℚ :=
  if a ≤ b then b else a

/-- Test whether the second list occurs at the head of the first. -/
def headMatches [DecidableEq α] : List α → List α → Bool
  | _, [] => true
  | [], _ :: _ => false
  | x :: xs, y :: ys => x = y && headMatches xs ys

/-- Test whether the second list occurs contiguously inside the first. -/
def hasSegment [DecidableEq α] : List α → List α → Bool
  | l, pat =>
    match l with
    | [] => pat.isEmpty
    | _ :: xs => headMatches l pat || hasSegment xs pat

/-- Substring test used to mirror the JS String.prototype.includes
checks in the route error mapping. -/
def strContains (s pat : String) : Bool :=
  hasSegment s.toList pat.toList

/-- Row of the enrollments table (the columns the billing core reads). -/
structure Enrollment where
  enrollment_id : Nat
  student_id : Nat
  program_id : Nat
  semester_id : Nat
  scheme_id : Nat
  status : String
  deriving DecidableEq, Repr

/-- Row of the tuition_schemes table.  Nullable numeric columns are
options; the code defaults them through the JS || idiom. -/
structure TuitionScheme where
  scheme_id : Nat
  scheme_name : String
  scheme_type : String
  amount : ℚ
  downpayment : Option ℚ
  monthly_payment : Option ℚ
  months : Option Nat
  discount : Option ℚ
  deriving DecidableEq, Repr

/-- Row of the accounts table, one ledger per student. -/
structure Account where
  account_id : Nat
  student_id : Nat
  total_balance : ℚ
  deriving DecidableEq, Repr

/-- Row of the payments table. -/
structure Payment where
  payment_id : Nat
  account_id : Nat
  enrollment_id : Option Nat
  amount : ℚ
  status : String
  payment_type : String
  method : Option String
  reference_no : Option String
  payment_date : Option JSDate
  deriving DecidableEq, Repr

/-- Row of the payment_transactions table, the gateway-side mirror of a
payment. -/
structure PaymentTransaction where
  payment_id : Nat
  status : String
  payment_method : Option String
  paid_at : Option JSDate
  deriving DecidableEq, Repr

/-- Row of the account_transactions audit table; append-only in all the
embedded code paths. -/
structure AccountTransaction where
  account_id : Nat
  payment_id : Nat
  transaction_type : String
  amount : ℚ
  balance_before : ℚ
  balance_after : ℚ
  description : String
  deriving DecidableEq, Repr

/-- Row of the enrollment_fees table. -/
structure EnrollmentFee where
  fee_id : Nat
  enrollment_id : Nat
  fee_type : String
  description : String
  amount : ℚ
  is_paid : Bool
  paid_at : Option JSDate
  deriving DecidableEq, Repr

/-- Row of the payment_installments table. -/
structure Installment where
  installment_id : Nat
  enrollment_id : Nat
  installment_number : Nat
  amount : ℚ
  due_date : JSDate
  status : String
  paid_at : Option JSDate
  payment_id : Option Nat
  deriving DecidableEq, Repr

/-- The ledger store: the tables the billing and payments routers touch.
The enrollment_subjects table only receives non-critical best-effort
inserts and is outside every claim, so it is not modelled. -/
structure DB where
  enrollments : List Enrollment
  schemes : List TuitionScheme
  accounts : List Account
  payments : List Payment
  payment_transactions : List PaymentTransaction
  account_transactions : List AccountTransaction
  enrollment_fees : List EnrollmentFee
  payment_installments : List Installment
  deriving DecidableEq, Repr

/-- Supabase update filtered by a predicate: every matching row is
mapped, the rest are untouched. -/
def updateWhere (p : α → Bool) (f : α → α) (l : List α) : List α :=
  l.map fun x => if p x then f x else x

/-- First element of the list minimising a natural-number key, modelling
an order-by-ascending limit-1 row selection. -/
def minByKey (key : α → Nat) : List α → Option α
  | [] => none
  | x :: xs =>
    match minByKey key xs with
    | none => some x
    | some m => if key m < key x then some m else some x

/-- Replace the first occurrence of a given row value by a new row. -/
def replaceFirstVal [DecidableEq α] (l : List α) (v w : α) : List α :=
  match l with
  | [] => []
  | x :: xs => if x = v then w :: xs else x :: replaceFirstVal xs v w

/-- Payment lookup by primary key. -/
def findPayment (db : DB) (pid : Nat) : Option Payment :=
  db.payments.find? fun p => p.payment_id == pid

/-- Account lookup by primary key. -/
def findAccount (db : DB) (aid : Nat) : Option Account :=
  db.accounts.find? fun a => a.account_id == aid

theorem minByKey_eq_none {key : α → Nat} {l : List α}
    (h : minByKey key l = none) : l = [] := by
  cases l with
  | nil => rfl
  | cons x xs =>
    rw [minByKey] at h
    split at h
    · exact absurd h (by simp)
    · split at h <;> exact absurd h (by simp)

theorem minByKey_spec {key : α → Nat} {l : List α} :
    ∀ {m : α}, minByKey key l = some m → m ∈ l ∧ ∀ x ∈ l, key m ≤ key x := by
  induction l with
  | nil => intro m h; simp [minByKey] at h
  | cons x xs ih =>
    intro m h
    rw [minByKey] at h
    split at h
    · rename_i hx
      injection h with h
      subst h
      have hnil := minByKey_eq_none hx
      subst hnil
      simp
    · rename_i m' hx
      obtain ⟨hmem, hmin⟩ := ih hx
      split at h
      · rename_i hlt
        injection h with h
        subst h
        refine ⟨List.mem_cons_of_mem _ hmem, ?_⟩
        intro y hy
        rcases List.mem_cons.mp hy with rfl | hy
        · omega
        · exact hmin y hy
      · rename_i hlt
        injection h with h
        subst h
        refine ⟨List.mem_cons_self _ _, ?_⟩
        intro y hy
        rcases List.mem_cons.mp hy with rfl | hy
        · omega
        · have := hmin y hy; omega

theorem minByKey_isSome_of_ne_nil {key : α → Nat} {l : List α}
    (h : l ≠ []) : ∃ m, minByKey key l = some m := by
  cases hm : minByKey key l with
  | none => exact absurd (minByKey_eq_none hm) h
  | some m => exact ⟨m, rfl⟩

theorem find?_updateWhere {p : α → Bool} {f : α → α}
    (hf : ∀ x, p x = true → p (f x) = true) :
    ∀ {l : List α} {a : α}, l.find? p = some a →
      (updateWhere p f l).find? p = some (f a) := by
  intro l
  induction l with
  | nil => intro a h; simp [List.find?] at h
  | cons x xs ih =>
    intro a h
    cases hp : p x with
    | true =>
      rw [List.find?_cons_of_pos _ hp] at h
      injection h with h
      subst h
      show ((if p x then f x else x) :: updateWhere p f xs).find? p = some (f x)
      rw [if_pos hp]
      exact List.find?_cons_of_pos _ (hf x hp)
    | false =>
      rw [List.find?_cons_of_neg _ (by simp [hp])] at h
      show ((if p x then f x else x) :: updateWhere p f xs).find? p = some (f a)
      rw [if_neg (by simp [hp])]
      rw [List.find?_cons_of_neg _ (by simp [hp])]
      exact ih h

/-- Settlement of the next installment as the payments router performs
it: the update is filtered to the pending installments of the
enrollment, ordered by due_date ascending and limited to one row
(payments.js mock-complete and webhook handlers). -/
def settlePendingInstallmentByDue (pid e : Nat) (now : JSDate)
    (l : List Installment) : List Installment :=
  match minByKey (fun i => dueKey i.due_date)
      (l.filter fun i => i.enrollment_id == e && i.status == "pending") with
  | none => l
  | some m =>
    replaceFirstVal l m
      { m with status := "paid", paid_at := some now, payment_id := some pid }

/-- Settlement of the next installment ordered by installment_number, as
the specification describes for the completion engine. -/
def settlePendingInstallmentByNumber (pid e : Nat) (now : JSDate)
    (l : List Installment) : List Installment :=
  match minByKey (fun i => i.installment_number)
      (l.filter fun i => i.enrollment_id == e && i.status == "pending") with
  | none => l
  | some m =>
    replaceFirstVal l m
      { m with status := "paid", paid_at := some now, payment_id := some pid }

/-- Update of the payment row to its completed form. -/
def markPaymentCompleted (pid : Nat) (refNo method : String) (now : JSDate)
    (l : List Payment) : List Payment :=
  updateWhere (fun q => q.payment_id == pid)
    (fun q => { q with status := "Completed", payment_date := some now, reference_no := some refNo, method := some method }) l

/-- Update of the mirrored payment transaction to its paid form. -/
def markTransactionPaid (pid : Nat) (method : String) (now : JSDate)
    (l : List PaymentTransaction) : List PaymentTransaction :=
  updateWhere (fun t => t.payment_id == pid)
    (fun t => { t with status := "paid", paid_at := some now, payment_method := some method }) l

/-- Modelled from the spec: the process_payment_transaction stored
procedure which processPaymentCompletion invokes over RPC is a
database-side function whose body is not part of the repository
sources.  Its ledger effects are modelled from specification section
4.3, steps 1-5: mark the payment Completed, mark the mirrored
transaction paid, apply the payment-type branch (fees, downpayment,
FIFO installment by installment_number, or balance floored at zero),
add the amount to the balance for enrollment-type payments, and append
one audit row. -/
def processPaymentTransactionRpc (db : DB) (pid : Nat) (p : Payment)
    (now : JSDate) : DB :=
  let prev := ((findAccount db p.account_id).map Account.total_balance).getD 0
  let ps :=
    updateWhere (fun q => q.payment_id == pid)
      (fun q => { q with status := "Completed", payment_date := some now })
      db.payments
  let ts :=
    updateWhere (fun t => t.payment_id == pid)
      (fun t => { t with status := "paid", paid_at := some now })
      db.payment_transactions
  let db2 := { db with payments := ps, payment_transactions := ts }
  let db3 :=
    if p.payment_type = "enrollment" ∨ p.payment_type = "full_payment" then
      match p.enrollment_id with
      | none => db2
      | some e =>
        let fs :=
          updateWhere (fun f => f.enrollment_id == e && !f.is_paid)
            (fun f => { f with is_paid := true, paid_at := some now })
            db2.enrollment_fees
        let dbf := { db2 with enrollment_fees := fs }
        let noUnpaid := (fs.filter fun f => f.enrollment_id == e && !f.is_paid).isEmpty
        let noPending := (dbf.payment_installments.filter
          fun i => i.enrollment_id == e && i.status == "pending").isEmpty
        if noUnpaid && noPending then
          let es :=
            updateWhere (fun en => en.enrollment_id == e)
              (fun en => { en with status := "Enrolled" }) dbf.enrollments
          { dbf with enrollments := es }
        else dbf
    else if p.payment_type = "downpayment" then
      match p.enrollment_id with
      | none => db2
      | some e =>
        let fs :=
          updateWhere (fun f => f.enrollment_id == e && f.fee_type == "Downpayment")
            (fun f => { f with is_paid := true, paid_at := some now })
            db2.enrollment_fees
        { db2 with enrollment_fees := fs }
    else if p.payment_type = "installment" ∨ p.payment_type = "monthly" then
      match p.enrollment_id with
      | none => db2
      | some e =>
        let il := settlePendingInstallmentByNumber pid e now db2.payment_installments
        { db2 with payment_installments := il }
    else if p.payment_type = "balance" then
      let as :=
        updateWhere (fun a => a.account_id == p.account_id)
          (fun a => { a with total_balance := jsMax 0 (a.total_balance - p.amount) })
          db2.accounts
      { db2 with accounts := as }
    else db2
  let db4 :=
    if p.payment_type = "enrollment" then
      let as :=
        updateWhere (fun a => a.account_id == p.account_id)
          (fun a => { a with total_balance := a.total_balance + p.amount })
          db3.accounts
      { db3 with accounts := as }
    else db3
  let after := ((findAccount db4 p.account_id).map Account.total_balance).getD 0
  let tx : AccountTransaction :=
    { account_id := p.account_id, payment_id := pid,
      transaction_type := "payment", amount := p.amount,
      balance_before := prev, balance_after := after,
      description := "Payment completion - " ++ p.payment_type }
  { db4 with account_transactions := db4.account_transactions ++ [tx] }

/-- Outcome of the payment completion engine. -/
structure CompletionResult where
  success : Bool
  already_processed : Bool
  deriving DecidableEq, Repr

/-- The payment completion engine of billing.js (processPaymentCompletion):
guard on an already Completed payment, otherwise run the transactional
RPC.  The post-transaction enrollment-subject creation is best-effort
and touches only the unmodelled enrollment_subjects table, so it has no
effect on the modelled state. -/
def processPaymentCompletion (db : DB) (pid : Nat) (p : Payment)
    (now : JSDate) : CompletionResult × DB :=
  if p.status = "Completed" then
    ({ success := true, already_processed := true }, db)
  else
    ({ success := true, already_processed := false },
     processPaymentTransactionRpc db pid p now)

/-- The enrollment-payment webhook helper of billing.js
(handleEnrollmentPayment): parse the payment id, load the payment and
run the completion engine; a zero or missing id and a missing payment
raise errors that the caller turns into a 500 response. -/
def handleEnrollmentPayment (db : DB) (pid : Nat) (now : JSDate) :
    Except String DB :=
  if pid = 0 then .error "Invalid webhook metadata"
  else
    match findPayment db pid with
    | none => .error "Payment not found"
    | some p => .ok (processPaymentCompletion db pid p now).2

/-- The payment-type branch shared verbatim by the mock-complete
endpoint and the tuition branch of the payments webhook (payments.js):
enrollment payments mark the unpaid fees of the enrollment paid;
balance and monthly payments floor the balance at zero, and monthly
payments additionally settle the first pending installment by due
date.  Payments of any other type fall through with no ledger effect. -/
def applyPaymentTypeEffects (db : DB) (pid : Nat) (p : Payment) (prev : ℚ)
    (now : JSDate) : DB :=
  if p.payment_type = "enrollment" then
    match p.enrollment_id with
    | none => db
    | some e =>
      let fs :=
        updateWhere (fun f => f.enrollment_id == e && !f.is_paid)
          (fun f => { f with is_paid := true, paid_at := some now })
          db.enrollment_fees
      { db with enrollment_fees := fs }
  else if p.payment_type = "balance" ∨ p.payment_type = "monthly" then
    let new_balance := jsMax 0 (prev - p.amount)
    let as :=
      updateWhere (fun a => a.account_id == p.account_id)
        (fun a => { a with total_balance := new_balance }) db.accounts
    let db1 := { db with accounts := as }
    if p.payment_type = "monthly" then
      match p.enrollment_id with
      | none => db1
      | some e =>
        let il := settlePendingInstallmentByDue pid e now db1.payment_installments
        { db1 with payment_installments := il }
    else db1
  else db

/-- The mock payment completion endpoint of payments.js
(POST /mock-complete/:payment_id).  The handler refuses to run in
production mode, loads the payment joined with its account, and on
success marks the payment Completed and applies the ledger effects with
no check of the prior payment status. -/
def mockComplete (paymongoEnabled : Bool) (pid : Nat) (success : Bool)
    (method : String) (now : JSDate) (db : DB) : Nat × DB :=
  if paymongoEnabled then (403, db)
  else
    match findPayment db pid with
    | none => (404, db)
    | some p =>
      match findAccount db p.account_id with
      | none => (500, db)
      | some acct =>
        if success then
          let amount := p.amount
          let prev := acct.total_balance
          let ps := markPaymentCompleted pid ("MOCK_" ++ toString pid) method now db.payments
          let ts := markTransactionPaid pid method now db.payment_transactions
          let db2 := { db with payments := ps, payment_transactions := ts }
          let db3 := applyPaymentTypeEffects db2 pid p prev now
          let tx : AccountTransaction :=
            { account_id := acct.account_id, payment_id := pid,
              transaction_type := "payment", amount := amount,
              balance_before := prev, balance_after := jsMax 0 (prev - amount),
              description := "Mock Payment - " ++ p.payment_type ++ " via " ++ method }
          let db4 := { db3 with account_transactions := db3.account_transactions ++ [tx] }
          (200, db4)
        else
          let ps :=
            updateWhere (fun q => q.payment_id == pid)
              (fun q => { q with status := "Failed", method := some method })
              db.payments
          let ts :=
            updateWhere (fun t => t.payment_id == pid)
              (fun t => { t with status := "failed", payment_method := some method })
              db.payment_transactions
          (200, { db with payments := ps, payment_transactions := ts })

/-- The tuition branch of the payments webhook (payments.js
POST /webhook, after the enrollment routing): loads the payment joined
with its account and applies the completion mutations with no check of
the prior payment status and no signature verification. -/
def tuitionWebhookLogic (pid : Nat) (checkoutId method : String)
    (now : JSDate) (db : DB) : Nat × DB :=
  match findPayment db pid with
  | none => (404, db)
  | some p =>
    match findAccount db p.account_id with
    | none => (500, db)
    | some acct =>
      let amount := p.amount
      let prev := acct.total_balance
      let ps := markPaymentCompleted pid checkoutId method now db.payments
      let ts := markTransactionPaid pid method now db.payment_transactions
      let db2 := { db with payments := ps, payment_transactions := ts }
      let db3 := applyPaymentTypeEffects db2 pid p prev now
      let tx : AccountTransaction :=
        { account_id := acct.account_id, payment_id := pid,
          transaction_type := "payment", amount := amount,
          balance_before := prev, balance_after := jsMax 0 (prev - amount),
          description := "Payment via " ++ method ++ " - " ++ p.payment_type }
      let db4 := { db3 with account_transactions := db3.account_transactions ++ [tx] }
      (200, db4)

/-- Parsed form of a PayMongo webhook event envelope: the event type
and the checkout-session metadata fields the handlers read. -/
structure PMEvent where
  event_type : Option String
  payment_category : Option String
  payment_id : Option Nat
  enrollment_id : Option Nat
  checkout_id : String
  source_type : Option String
  deriving DecidableEq, Repr

/-- The generic payments webhook (payments.js POST /webhook).  The
signature-verification block of the source is commented out, so the
configuration values are in scope, exactly as in the source closure,
but never read.  Enrollment-category events are routed to
handleEnrollmentPayment, every other paid event runs the tuition
branch. -/
def paymentsWebhook (paymongoEnabled : Bool) (webhookSecret : Option String)
    (ev : PMEvent) (now : JSDate) (db : DB) : Nat × DB :=
  if ev.event_type = some "checkout_session.payment.paid" then
    match ev.payment_id with
    | none => (400, db)
    | some pid =>
      if ev.enrollment_id.isSome ∧ ev.payment_category = some "enrollment" then
        match handleEnrollmentPayment db pid now with
        | .error _ => (500, db)
        | .ok db2 => (200, db2)
      else
        tuitionWebhookLogic pid ev.checkout_id (ev.source_type.getD "card") now db
  else (200, db)

/-- The administrative cancel endpoint (payments.js
POST /cancel/:payment_id): only a Pending payment may be cancelled,
any other prior status is rejected with 400 and no mutation. -/
def cancelPayment (db : DB) (pid : Nat) : Nat × DB :=
  match findPayment db pid with
  | none => (404, db)
  | some p =>
    if p.status ≠ "Pending" then (400, db)
    else
      let ps :=
        updateWhere (fun q => q.payment_id == pid)
          (fun q => { q with status := "Cancelled" }) db.payments
      let ts :=
        updateWhere (fun t => t.payment_id == pid)
          (fun t => { t with status := "cancelled" }) db.payment_transactions
      (200, { db with payments := ps, payment_transactions := ts })

/-- The gateway cancel-redirect callback (billing.js
GET /payment/cancel): when a payment id is present the payment and its
transaction are set to Cancelled with no check of the prior status,
and the handler redirects (302). -/
def cancelRedirect (db : DB) (pidOpt : Option Nat) : Nat × DB :=
  match pidOpt with
  | none => (302, db)
  | some pid =>
    let ps :=
      updateWhere (fun q => q.payment_id == pid)
        (fun q => { q with status := "Cancelled" }) db.payments
    let ts :=
      updateWhere (fun t => t.payment_id == pid)
        (fun t => { t with status := "cancelled" }) db.payment_transactions
    (302, { db with payments := ps, payment_transactions := ts })

/-- Fresh primary key for an inserted enrollment fee. -/
def nextFeeId (db : DB) : Nat :=
  (db.enrollment_fees.map (fun f => f.fee_id)).foldl max 0 + 1

/-- Fresh primary key for an inserted payment installment. -/
def nextInstallmentId (db : DB) : Nat :=
  (db.payment_installments.map (fun i => i.installment_id)).foldl max 0 + 1

/-- Fresh primary key for an inserted account. -/
def nextAccountId (db : DB) : Nat :=
  (db.accounts.map (fun a => a.account_id)).foldl max 0 + 1

/-- Modelled from the spec: the initialize_account_balance stored
procedure invoked by generateBilling over RPC is a database-side
function whose body is not part of the repository sources.  Following
specification section 4.1, it atomically creates or locates the
student account, sets total_balance to the computed total, and returns
the account id. -/
def initializeAccountBalanceRpc (db : DB) (student_id : Nat)
    (totalAmount : ℚ) : Nat × DB :=
  match db.accounts.find? (fun a => a.student_id == student_id) with
  | some a =>
    let as :=
      updateWhere (fun x => x.account_id == a.account_id)
        (fun x => { x with total_balance := totalAmount }) db.accounts
    (a.account_id, { db with accounts := as })
  | none =>
    let aid := nextAccountId db
    (aid, { db with accounts := db.accounts ++ [{ account_id := aid, student_id := student_id, total_balance := totalAmount }] })

/-- Result payload of generateBilling; the warned flag records whether
the handler logged the installment-total mismatch warning. -/
structure BillingResult where
  billing_type : String
  account_id : Nat
  total_amount : ℚ
  downpayment : ℚ
  monthly_payment : ℚ
  number_of_months : Nat
  warned : Bool
  deriving DecidableEq, Repr

/-- The billing generator of billing.js (generateBilling): load the
enrollment and its scheme, refuse when any fee or installment row
already exists, compute the discounted total, initialize the account
balance through the RPC, then materialize either one full-payment fee
or a downpayment fee plus one installment row per scheme month with
due dates computed by JS setMonth.  Errors carry the thrown message
and the state reached at the throw point. -/
def generateBilling (db : DB) (now : JSDate) (enrollment_id : Nat) :
    Except String BillingResult × DB :=
  match db.enrollments.find? (fun en => en.enrollment_id == enrollment_id) with
  | none => (.error "Enrollment not found", db)
  | some enr =>
    match db.schemes.find? (fun s => s.scheme_id == enr.scheme_id) with
    | none => (.error "No tuition scheme found for this enrollment", db)
    | some scheme =>
      if 0 < (db.enrollment_fees.filter fun f => f.enrollment_id == enrollment_id).length
          ∨ 0 < (db.payment_installments.filter fun i => i.enrollment_id == enrollment_id).length then
        (.error "Billing already generated for this enrollment", db)
      else
        let baseAmount := scheme.amount
        let discount := jsOrQ scheme.discount 0
        let totalAmount := round2 (baseAmount - discount)
        if totalAmount ≤ 0 then (.error "Invalid billing amount", db)
        else
          let init := initializeAccountBalanceRpc db enr.student_id totalAmount
          let account_id := init.1
          let db1 := init.2
          if scheme.scheme_type = "full_payment" then
            let fee : EnrollmentFee :=
              { fee_id := nextFeeId db1, enrollment_id := enrollment_id,
                fee_type := "Tuition",
                description := "Full Payment - " ++ scheme.scheme_name,
                amount := totalAmount, is_paid := false, paid_at := none }
            let db2 := { db1 with enrollment_fees := db1.enrollment_fees ++ [fee] }
            (.ok { billing_type := "full_payment", account_id := account_id,
                   total_amount := totalAmount, downpayment := 0,
                   monthly_payment := 0, number_of_months := 0,
                   warned := false }, db2)
          else if scheme.scheme_type = "installment" then
            let downpayment := jsOrQ scheme.downpayment 0
            let monthlyPayment := jsOrQ scheme.monthly_payment 0
            let months := jsOrNat scheme.months 4
            let totalInstallments := round2 (downpayment + monthlyPayment * months)
            let warned := decide (|totalInstallments - totalAmount| > 1 / 100)
            let dfee : EnrollmentFee :=
              { fee_id := nextFeeId db1, enrollment_id := enrollment_id,
                fee_type := "Downpayment",
                description := "Downpayment - " ++ scheme.scheme_name,
                amount := downpayment, is_paid := false, paid_at := none }
            let db2 := { db1 with enrollment_fees := db1.enrollment_fees ++ [dfee] }
            let base := nextInstallmentId db2
            let insts := (List.range months).map fun i =>
              ({ installment_id := base + i, enrollment_id := enrollment_id,
                 installment_number := i + 1, amount := monthlyPayment,
                 due_date := addMonths now (i + 1), status := "pending",
                 paid_at := none, payment_id := none } : Installment)
            let db3 := { db2 with payment_installments := db2.payment_installments ++ insts }
            (.ok { billing_type := "installment", account_id := account_id,
                   total_amount := totalAmount, downpayment := downpayment,
                   monthly_payment := monthlyPayment, number_of_months := months,
                   warned := warned }, db3)
          else (.error ("Invalid scheme type: " ++ scheme.scheme_type), db1)

/-- The generate-billing route handler (billing.js
POST /generate-billing): require an enrollment id, run generateBilling
and map thrown messages to status codes through the same
substring tests as the source. -/
def generateBillingRoute (db : DB) (now : JSDate)
    (enrollment_id : Option Nat) : Nat × DB :=
  match enrollment_id with
  | none => (400, db)
  | some e =>
    match generateBilling db now e with
    | (.ok _, db2) => (200, db2)
    | (.error msg, db2) =>
      (if strContains msg "already generated" then 400
       else if strContains msg "not found" then 404
       else 500, db2)

/-- The amount-determination prefix of the create-checkout handler
(billing.js POST /create-checkout, steps 1 to 3): load enrollment,
scheme and account, branch on scheme type and paid state to pick the
amount and payment type, then round to 2 decimals and validate.  A
missing scheme makes the source dereference null and the outer catch
answers 500 with a generic message. -/
def createCheckoutAmount (db : DB) (enrollment_id : Nat) :
    Except String (ℚ × String) :=
  match db.enrollments.find? (fun en => en.enrollment_id == enrollment_id) with
  | none => .error "Enrollment not found"
  | some enr =>
    match db.schemes.find? (fun s => s.scheme_id == enr.scheme_id) with
    | none => .error "Internal server error"
    | some scheme =>
      match db.accounts.find? (fun a => a.student_id == enr.student_id) with
      | none => .error "Account not found. Please generate billing first."
      | some _ =>
        let det : Except String (ℚ × String) :=
          if scheme.scheme_type = "full_payment" then
            let fees := db.enrollment_fees.filter
              fun f => f.enrollment_id == enrollment_id && !f.is_paid
            if fees.length = 0 then
              .error "No unpaid fees found. All payments completed or billing not generated."
            else
              .ok (fees.foldl (fun s f => s + f.amount) 0, "full_payment")
          else if scheme.scheme_type = "installment" then
            match db.enrollment_fees.find?
                (fun f => f.enrollment_id == enrollment_id && f.fee_type == "Downpayment") with
            | none => .error "Billing not generated. Please generate billing first."
            | some dfee =>
              if !dfee.is_paid then .ok (dfee.amount, "downpayment")
              else
                match minByKey (fun i => i.installment_number)
                    (db.payment_installments.filter
                      fun i => i.enrollment_id == enrollment_id && i.status == "pending") with
                | none => .error "No pending installments found. All payments completed."
                | some inst => .ok (inst.amount, "installment")
          else .error "Invalid scheme type"
        match det with
        | .error m => .error m
        | .ok amtType =>
          let amt := round2 amtType.1
          if amt ≤ 0 then .error "Invalid payment amount"
          else .ok (amt, amtType.2)

/-- JS String.prototype.split at a single separator character, written
on character lists so that concrete runs reduce. -/
def splitOnChar (c : Char) : List Char → List (List Char)
  | [] => [[]]
  | x :: xs =>
    let r := splitOnChar c xs
    if x = c then [] :: r
    else
      match r with
      | [] => [[x]]
      | h :: t => (x :: h) :: t

/-- Extraction of the delivered signature from the comma-separated
PayMongo signature header: the first field starting with s=, split at
the equals sign. -/
def extractSig (hdr : String) : Option String :=
  match (splitOnChar ',' hdr.toList).find? (fun part => headMatches part (['s', '='] : List Char)) with
  | none => none
  | some part => ((splitOnChar '=' part).get? 1).map (fun cs => String.mk cs)

/-- The event-processing tail of the secured billing webhook
(billing.js POST /webhook/paymongo after signature verification): a
body that fails to parse is answered 500 by the catch block;
non-enrollment events are acknowledged and skipped; enrollment events
load the payment and run the completion engine. -/
def billingWebhookProcess (event : Option PMEvent) (now : JSDate)
    (db : DB) : Nat × DB :=
  match event with
  | none => (500, db)
  | some ev =>
    if ev.event_type = some "checkout_session.payment.paid" then
      if ev.payment_category ≠ some "enrollment" then (200, db)
      else
        match ev.payment_id with
        | none => (400, db)
        | some pid =>
          if pid = 0 then (400, db)
          else
            match findPayment db pid with
            | none => (404, db)
            | some p => (200, (processPaymentCompletion db pid p now).2)
    else (200, db)

/-- The secured billing webhook (billing.js POST /webhook/paymongo).
When the gateway and the webhook secret are both configured, the
handler computes an HMAC-SHA256 hex digest of the raw body with the
shared secret (the digest function is a parameter of the model),
extracts the delivered signature from the header, and rejects with 401
before any database access when the header is missing, the extracted
signature is empty, or it differs from the computed digest. -/
def billingWebhook (enabled : Bool) (whSecret : Option String)
    (hmacHex : String → String → String) (sigHeader : Option String)
    (rawBody : String) (event : Option PMEvent) (now : JSDate) (db : DB) :
    Nat × DB :=
  match enabled, whSecret with
  | true, some secret =>
    match sigHeader with
    | none => (401, db)
    | some hdr =>
      let computed := hmacHex secret rawBody
      match extractSig hdr with
      | none => (401, db)
      | some actual =>
        if actual = "" then (401, db)
        else if actual ≠ computed then (401, db)
        else billingWebhookProcess event now db
  | _, _ => billingWebhookProcess event now db

theorem jsMax_eq_max (a b : ℚ) : jsMax a b = max a b := by
  rw [jsMax, max_def]

/-- The already Completed balance payment of the fixture ledger below. -/
def pCompleted : Payment :=
  { payment_id := 1, account_id := 1, enrollment_id := none,
    amount := 50, status := "Completed", payment_type := "balance",
    method := none, reference_no := none, payment_date := none }

/-- A ledger with one already Completed balance payment of 50 against an
account holding 100, used to exercise the unguarded completion paths. -/
def dbCompletedBalance : DB :=
  { enrollments := [], schemes := [],
    accounts := [{ account_id := 1, student_id := 9, total_balance := 100 }],
    payments := [pCompleted],
    payment_transactions := [{ payment_id := 1, status := "paid", payment_method := none, paid_at := none }],
    account_transactions := [], enrollment_fees := [], payment_installments := [] }

/-- An arbitrary fixed timestamp for concrete runs. -/
def tNow : JSDate := { absMonth := 24305, day := 15 }

/-- C1 counterexample: the mock-completion trigger, one of the three
completion triggers the claim quantifies over, re-applies the ledger
mutation to a payment whose status is already Completed: the account
balance drops from 100 to 50 and a new AccountTransaction row is
appended, so the claim that every completion trigger performs no
further mutation on a Completed payment is false. -/
theorem mockComplete_mutates_completed_payment :
    (findPayment dbCompletedBalance 1).map Payment.status = some "Completed" ∧
    (findAccount dbCompletedBalance 1).map Account.total_balance = some 100 ∧
    (findAccount (mockComplete false 1 true "mock_payment" tNow dbCompletedBalance).2 1).map
      Account.total_balance = some 50 ∧
    (mockComplete false 1 true "mock_payment" tNow dbCompletedBalance).2.account_transactions.length =
      dbCompletedBalance.account_transactions.length + 1 := by
  refine ⟨rfl, rfl, ?_, ?_⟩
  · norm_num [mockComplete, findPayment, findAccount, dbCompletedBalance, pCompleted, tNow,
      applyPaymentTypeEffects, settlePendingInstallmentByDue, markPaymentCompleted,
      markTransactionPaid, updateWhere, jsMax, List.find?]
  · norm_num [mockComplete, findPayment, findAccount, dbCompletedBalance, pCompleted, tNow,
      applyPaymentTypeEffects, settlePendingInstallmentByDue, markPaymentCompleted,
      markTransactionPaid, updateWhere, jsMax, List.find?]
    simp

/-- C1 (amended): the completion engine processPaymentCompletion itself
is idempotent: for a payment whose status is already Completed it
returns success with already_processed true and leaves the ledger
untouched; the billing webhook, the success redirect and the
enrollment branch of the payments webhook all reach this guard. -/
theorem processPaymentCompletion_completed_noop (db : DB) (pid : Nat)
    (p : Payment) (now : JSDate) (h : p.status = "Completed") :
    processPaymentCompletion db pid p now =
      ({ success := true, already_processed := true }, db) := by
  simp [processPaymentCompletion, h]

theorem processPaymentCompletion_completed_noop_witness :
    processPaymentCompletion dbCompletedBalance 1 pCompleted tNow =
      ({ success := true, already_processed := true }, dbCompletedBalance) :=
  processPaymentCompletion_completed_noop dbCompletedBalance 1 pCompleted tNow rfl

/-- C3 counterexample: the gateway cancel-redirect callback moves a
payment out of the terminal Completed status: running it on the ledger
whose only payment is Completed leaves that payment Cancelled, so the
claim that every cancellation path flips a payment to Cancelled only
from Pending and rejects cancelling a Completed payment is false. -/
theorem cancelRedirect_cancels_completed_payment :
    (findPayment dbCompletedBalance 1).map Payment.status = some "Completed" ∧
    (findPayment (cancelRedirect dbCompletedBalance (some 1)).2 1).map Payment.status =
      some "Cancelled" := by
  decide

/-- C3 (amended): the administrative cancel endpoint alone satisfies the
terminal-state rule: it rejects with 400 and mutates nothing when the
payment is not Pending, and moves a Pending payment to Cancelled; the
gateway cancel-redirect callback cancels unconditionally instead. -/
theorem cancelPayment_only_pending (db : DB) (pid : Nat) (p : Payment)
    (hp : findPayment db pid = some p) :
    (p.status ≠ "Pending" → cancelPayment db pid = (400, db)) ∧
    (p.status = "Pending" →
      (cancelPayment db pid).1 = 200 ∧
      (findPayment (cancelPayment db pid).2 pid).map Payment.status = some "Cancelled") := by
  constructor
  · intro hne
    simp [cancelPayment, hp, hne]
  · intro hpend
    have hfind : ((cancelPayment db pid).2.payments.find? fun q => q.payment_id == pid) =
        some { p with status := "Cancelled" } := by
      simp only [cancelPayment, hp, hpend]
      rw [if_neg (by simp)]
      exact find?_updateWhere (by intro x hx; simpa using hx) hp
    constructor
    · simp [cancelPayment, hp, hpend]
    · rw [show findPayment (cancelPayment db pid).2 pid =
          ((cancelPayment db pid).2.payments.find? fun q => q.payment_id == pid) from rfl]
      rw [hfind]
      rfl

theorem cancelPayment_only_pending_witness :
    ((pCompleted.status ≠ "Pending" →
        cancelPayment dbCompletedBalance 1 = (400, dbCompletedBalance)) ∧
     (pCompleted.status = "Pending" →
        (cancelPayment dbCompletedBalance 1).1 = 200 ∧
        (findPayment (cancelPayment dbCompletedBalance 1).2 1).map Payment.status =
          some "Cancelled")) := by
  have h := cancelPayment_only_pending dbCompletedBalance 1 pCompleted (by decide)
  exact h

theorem tuitionWebhookLogic_status_ne_401 (pid : Nat) (checkoutId method : String)
    (now : JSDate) (db : DB) : (tuitionWebhookLogic pid checkoutId method now db).1 ≠ 401 := by
  unfold tuitionWebhookLogic
  cases hp : findPayment db pid with
  | none => simp [hp]
  | some p =>
    cases ha : findAccount db p.account_id with
    | none => simp [hp, ha]
    | some acct => simp [hp, ha]

theorem handleEnrollmentPayment_cases (db : DB) (pid : Nat) (now : JSDate) :
    (∃ msg, handleEnrollmentPayment db pid now = .error msg) ∨
    (∃ db2, handleEnrollmentPayment db pid now = .ok db2) := by
  unfold handleEnrollmentPayment
  split
  · exact Or.inl ⟨_, rfl⟩
  · cases findPayment db pid with
    | none => exact Or.inl ⟨_, rfl⟩
    | some p => exact Or.inr ⟨_, rfl⟩

/-- C9: the generic payments webhook performs no signature verification
in any configuration: whatever the gateway flag, the webhook secret,
the delivered event and the ledger state, its response status is never
401. -/
theorem paymentsWebhook_never_401 (paymongoEnabled : Bool)
    (webhookSecret : Option String) (ev : PMEvent) (now : JSDate) (db : DB) :
    (paymentsWebhook paymongoEnabled webhookSecret ev now db).1 ≠ 401 := by
  unfold paymentsWebhook
  split
  · cases ev.payment_id with
    | none => simp
    | some pid =>
      simp only
      split
      · rcases handleEnrollmentPayment_cases db pid now with ⟨msg, hm⟩ | ⟨db2, hm⟩ <;>
          simp [hm]
      · exact tuitionWebhookLogic_status_ne_401 _ _ _ _ _
  · simp

/-- An empty ledger used for concrete webhook runs. -/
def dbEmpty : DB :=
  { enrollments := [], schemes := [], accounts := [], payments := [],
    payment_transactions := [], account_transactions := [],
    enrollment_fees := [], payment_installments := [] }

/-- C6: with the gateway and the webhook secret configured, the billing
webhook answers 401 and leaves the ledger untouched whenever the
signature header is missing, carries no s= field, carries an empty
signature, or carries a signature different from the HMAC-SHA256 hex
digest of the raw body under the shared secret (in particular for a
tampered body whose header still carries the digest of the original
body). -/
theorem billingWebhook_rejects_bad_signature (secret : String)
    (hmacHex : String → String → String) (sigHeader : Option String)
    (rawBody : String) (event : Option PMEvent) (now : JSDate) (db : DB)
    (hbad : sigHeader.bind extractSig ≠ some (hmacHex secret rawBody) ∨
            sigHeader.bind extractSig = some "") :
    billingWebhook true (some secret) hmacHex sigHeader rawBody event now db =
      (401, db) := by
  unfold billingWebhook
  cases sigHeader with
  | none => rfl
  | some hdr =>
    simp only [Option.bind] at hbad
    cases hx : extractSig hdr with
    | none => simp [hx]
    | some actual =>
      rw [hx] at hbad
      by_cases hemp : actual = ""
      · simp [hx, hemp]
      · have hne : actual ≠ hmacHex secret rawBody := by
          rcases hbad with hbad | hbad
          · intro hc; exact hbad (by rw [hc])
          · exact absurd (by injection hbad) hemp
        simp [hx, hemp, hne]

theorem billingWebhook_rejects_bad_signature_witness :
    billingWebhook true (some "whsk_test") (fun s b => s ++ "/" ++ b)
      (some "t=170,te=0,s=deadbeef") "tamperedbody" none tNow dbEmpty =
      (401, dbEmpty) :=
  billingWebhook_rejects_bad_signature "whsk_test" (fun s b => s ++ "/" ++ b)
    (some "t=170,te=0,s=deadbeef") "tamperedbody" none tNow dbEmpty
    (Or.inl (by decide))

theorem applyPaymentTypeEffects_balance_accounts (db : DB) (pid : Nat)
    (p : Payment) (prev : ℚ) (now : JSDate) (hpt : p.payment_type = "balance") :
    (applyPaymentTypeEffects db pid p prev now).accounts =
      updateWhere (fun x => x.account_id == p.account_id)
        (fun x => { x with total_balance := jsMax 0 (prev - p.amount) })
        db.accounts := by
  simp [applyPaymentTypeEffects, hpt]

/-- C4: completing a balance-type payment through either unguarded
completion path (the mock-complete endpoint or the tuition branch of
the payments webhook) sets the account balance to
max 0 (previous balance - amount): a payment larger than the balance
leaves exactly zero, never a negative value. -/
theorem balance_payment_floors_balance_at_zero (db : DB) (pid : Nat)
    (p : Payment) (a : Account) (mth checkoutId : String) (now : JSDate)
    (hp : findPayment db pid = some p) (hpt : p.payment_type = "balance")
    (ha : findAccount db p.account_id = some a) :
    findAccount (mockComplete false pid true mth now db).2 p.account_id =
      some { a with total_balance := max 0 (a.total_balance - p.amount) } ∧
    findAccount (tuitionWebhookLogic pid checkoutId mth now db).2 p.account_id =
      some { a with total_balance := max 0 (a.total_balance - p.amount) } := by
  have ha' : db.accounts.find? (fun x => x.account_id == p.account_id) = some a := ha
  have hpres : ∀ x : Account, (x.account_id == p.account_id) = true →
      ((({ x with total_balance := jsMax 0 (a.total_balance - p.amount) } : Account)).account_id
        == p.account_id) = true := by
    intro x hx
    simpa using hx
  have hfind := @find?_updateWhere Account (fun x => x.account_id == p.account_id)
    (fun x => { x with total_balance := jsMax 0 (a.total_balance - p.amount) })
    hpres db.accounts a ha'
  rw [jsMax_eq_max] at hfind
  constructor
  · show (mockComplete false pid true mth now db).2.accounts.find?
      (fun x => x.account_id == p.account_id) = _
    simp only [mockComplete, hp, ha, Bool.false_eq_true, if_false, if_true]
    rw [applyPaymentTypeEffects_balance_accounts _ _ _ _ _ hpt]
    rw [jsMax_eq_max]
    exact hfind
  · show (tuitionWebhookLogic pid checkoutId mth now db).2.accounts.find?
      (fun x => x.account_id == p.account_id) = _
    simp only [tuitionWebhookLogic, hp, ha]
    rw [applyPaymentTypeEffects_balance_accounts _ _ _ _ _ hpt]
    rw [jsMax_eq_max]
    exact hfind

/-- A Pending balance payment larger than the account balance. -/
def pBigBalance : Payment :=
  { payment_id := 3, account_id := 2, enrollment_id := none,
    amount := 150, status := "Pending", payment_type := "balance",
    method := none, reference_no := none, payment_date := none }

/-- A ledger holding 100 against which the oversized balance payment runs. -/
def dbBigBalance : DB :=
  { enrollments := [], schemes := [],
    accounts := [{ account_id := 2, student_id := 8, total_balance := 100 }],
    payments := [pBigBalance],
    payment_transactions := [{ payment_id := 3, status := "pending", payment_method := none, paid_at := none }],
    account_transactions := [], enrollment_fees := [], payment_installments := [] }

theorem balance_payment_floors_balance_at_zero_witness :
    findAccount (mockComplete false 3 true "gcash" tNow dbBigBalance).2 pBigBalance.account_id =
      some { account_id := 2, student_id := 8, total_balance := max 0 ((100 : ℚ) - 150) } ∧
    findAccount (tuitionWebhookLogic 3 "cs_test" "gcash" tNow dbBigBalance).2 pBigBalance.account_id =
      some { account_id := 2, student_id := 8, total_balance := max 0 ((100 : ℚ) - 150) } :=
  balance_payment_floors_balance_at_zero dbBigBalance 3 pBigBalance
    { account_id := 2, student_id := 8, total_balance := 100 }
    "gcash" "cs_test" tNow (by decide) (by decide) (by decide)

theorem applyPaymentTypeEffects_monthly_installments (db : DB) (pid : Nat)
    (p : Payment) (prev : ℚ) (now : JSDate) (e : Nat)
    (hpt : p.payment_type = "monthly") (he : p.enrollment_id = some e) :
    (applyPaymentTypeEffects db pid p prev now).payment_installments =
      settlePendingInstallmentByDue pid e now db.payment_installments := by
  simp [applyPaymentTypeEffects, hpt, he]

/-- C2 (amended): completing a monthly-type payment through the
payments router marks exactly one installment as paid: the first
pending installment of the enrollment in due_date order, linked to the
completing payment id.  Whenever due dates increase with
installment_number, as generateBilling creates them, this is also the
pending installment with the lowest installment_number. -/
theorem monthly_completion_settles_lowest_pending (db : DB) (pid : Nat)
    (p : Payment) (a : Account) (e : Nat) (mth : String) (now : JSDate)
    (hp : findPayment db pid = some p)
    (hpt : p.payment_type = "monthly")
    (he : p.enrollment_id = some e)
    (ha : findAccount db p.account_id = some a)
    (hne : db.payment_installments.filter
      (fun i => i.enrollment_id == e && i.status == "pending") ≠ [])
    (hmono : ∀ i ∈ db.payment_installments, ∀ j ∈ db.payment_installments,
      i.enrollment_id = e → j.enrollment_id = e →
      i.installment_number < j.installment_number →
      dueKey i.due_date < dueKey j.due_date) :
    ∃ m ∈ db.payment_installments, m.enrollment_id = e ∧ m.status = "pending" ∧
      (∀ x ∈ db.payment_installments, x.enrollment_id = e → x.status = "pending" →
        m.installment_number ≤ x.installment_number) ∧
      (mockComplete false pid true mth now db).2.payment_installments =
        replaceFirstVal db.payment_installments m
          { m with status := "paid", paid_at := some now, payment_id := some pid } := by
  obtain ⟨m, hm⟩ := @minByKey_isSome_of_ne_nil Installment (fun i => dueKey i.due_date)
    (db.payment_installments.filter (fun i => i.enrollment_id == e && i.status == "pending")) hne
  obtain ⟨hmemf, hminf⟩ := minByKey_spec hm
  obtain ⟨hmem, hpred⟩ := List.mem_filter.mp hmemf
  rw [Bool.and_eq_true, beq_iff_eq, beq_iff_eq] at hpred
  refine ⟨m, hmem, hpred.1, hpred.2, ?_, ?_⟩
  · intro x hx hxe hxs
    by_contra hcon
    push_neg at hcon
    have hdk := hmono x hx m hmem hxe hpred.1 hcon
    have hxf : x ∈ db.payment_installments.filter
        (fun i => i.enrollment_id == e && i.status == "pending") := by
      rw [List.mem_filter]
      exact ⟨hx, by rw [Bool.and_eq_true, beq_iff_eq, beq_iff_eq]; exact ⟨hxe, hxs⟩⟩
    have := hminf x hxf
    omega
  · simp only [mockComplete, hp, ha, Bool.false_eq_true, if_false, if_true]
    rw [applyPaymentTypeEffects_monthly_installments _ _ _ _ _ _ hpt he]
    show settlePendingInstallmentByDue pid e now db.payment_installments = _
    rw [settlePendingInstallmentByDue, hm]

/-- Two pending installments of enrollment 1 whose due dates are out of
order with their installment numbers: number 1 is due later than
number 2. -/
def instLaterDue : Installment :=
  { installment_id := 11, enrollment_id := 1, installment_number := 1,
    amount := 2000, due_date := { absMonth := 100, day := 20 },
    status := "pending", paid_at := none, payment_id := none }

def instEarlierDue : Installment :=
  { installment_id := 12, enrollment_id := 1, installment_number := 2,
    amount := 2000, due_date := { absMonth := 100, day := 10 },
    status := "pending", paid_at := none, payment_id := none }

/-- A Pending monthly payment against enrollment 1. -/
def pMonthly : Payment :=
  { payment_id := 5, account_id := 1, enrollment_id := some 1,
    amount := 2000, status := "Pending", payment_type := "monthly",
    method := none, reference_no := none, payment_date := none }

/-- A ledger where the pending installment numbers and due dates
disagree on which row comes first. -/
def dbOutOfOrderDue : DB :=
  { enrollments := [], schemes := [],
    accounts := [{ account_id := 1, student_id := 9, total_balance := 9000 }],
    payments := [pMonthly],
    payment_transactions := [{ payment_id := 5, status := "pending", payment_method := none, paid_at := none }],
    account_transactions := [], enrollment_fees := [],
    payment_installments := [instLaterDue, instEarlierDue] }

/-- C2 counterexample: with installments 1 and 2 both pending and
installment 2 carrying the earlier due date, completing a monthly
payment marks installment 2 as paid and leaves installment 1 pending:
the code settles the first pending row ordered by due_date, not the
pending row with the lowest installment_number as the claim states. -/
theorem monthly_completion_not_fifo_by_number :
    ((mockComplete false 5 true "mock_payment" tNow dbOutOfOrderDue).2.payment_installments.find?
        (fun i => i.installment_number == 1)).map Installment.status = some "pending" ∧
    ((mockComplete false 5 true "mock_payment" tNow dbOutOfOrderDue).2.payment_installments.find?
        (fun i => i.installment_number == 2)).map Installment.status = some "paid" := by
  constructor
  · norm_num [mockComplete, findPayment, findAccount, dbOutOfOrderDue, pMonthly, tNow,
      applyPaymentTypeEffects, settlePendingInstallmentByDue, minByKey, dueKey,
      replaceFirstVal, instLaterDue, instEarlierDue, markPaymentCompleted,
      markTransactionPaid, updateWhere, jsMax, List.find?]
  · norm_num [mockComplete, findPayment, findAccount, dbOutOfOrderDue, pMonthly, tNow,
      applyPaymentTypeEffects, settlePendingInstallmentByDue, minByKey, dueKey,
      replaceFirstVal, instLaterDue, instEarlierDue, markPaymentCompleted,
      markTransactionPaid, updateWhere, jsMax, List.find?]
    simp

/-- The same ledger with due dates in installment-number order. -/
def dbInOrderDue : DB :=
  { enrollments := [], schemes := [],
    accounts := [{ account_id := 1, student_id := 9, total_balance := 9000 }],
    payments := [pMonthly],
    payment_transactions := [{ payment_id := 5, status := "pending", payment_method := none, paid_at := none }],
    account_transactions := [], enrollment_fees := [],
    payment_installments :=
      [{ installment_id := 11, enrollment_id := 1, installment_number := 1,
         amount := 2000, due_date := { absMonth := 100, day := 10 },
         status := "pending", paid_at := none, payment_id := none },
       { installment_id := 12, enrollment_id := 1, installment_number := 2,
         amount := 2000, due_date := { absMonth := 100, day := 20 },
         status := "pending", paid_at := none, payment_id := none }] }

theorem monthly_completion_settles_lowest_pending_witness :
    ∃ m ∈ dbInOrderDue.payment_installments, m.enrollment_id = 1 ∧ m.status = "pending" ∧
      (∀ x ∈ dbInOrderDue.payment_installments, x.enrollment_id = 1 → x.status = "pending" →
        m.installment_number ≤ x.installment_number) ∧
      (mockComplete false 5 true "mock_payment" tNow dbInOrderDue).2.payment_installments =
        replaceFirstVal dbInOrderDue.payment_installments m
          { m with status := "paid", paid_at := some tNow, payment_id := some 5 } :=
  monthly_completion_settles_lowest_pending dbInOrderDue 5 pMonthly
    { account_id := 1, student_id := 9, total_balance := 9000 } 1 "mock_payment" tNow
    (by decide) (by decide) (by decide) (by decide) (by decide) (by decide)

theorem initializeAccountBalanceRpc_components (db : DB) (sid : Nat) (t : ℚ) :
    ((initializeAccountBalanceRpc db sid t).2).enrollments = db.enrollments ∧
    ((initializeAccountBalanceRpc db sid t).2).schemes = db.schemes ∧
    ((initializeAccountBalanceRpc db sid t).2).enrollment_fees = db.enrollment_fees ∧
    ((initializeAccountBalanceRpc db sid t).2).payment_installments = db.payment_installments := by
  unfold initializeAccountBalanceRpc
  split <;> exact ⟨rfl, rfl, rfl, rfl⟩

theorem generateBilling_ok_facts {db : DB} {now : JSDate} {e : Nat}
    {r : BillingResult} {db1 : DB}
    (h : generateBilling db now e = (.ok r, db1)) :
    (∃ enr, db.enrollments.find? (fun x => x.enrollment_id == e) = some enr ∧
      ∃ s, db.schemes.find? (fun x => x.scheme_id == enr.scheme_id) = some s) ∧
    db1.enrollments = db.enrollments ∧ db1.schemes = db.schemes ∧
    0 < (db1.enrollment_fees.filter fun f => f.enrollment_id == e).length := by
  unfold generateBilling at h
  cases henr : db.enrollments.find? (fun en => en.enrollment_id == e) with
  | none => rw [henr] at h; exact absurd h (by simp)
  | some enr =>
    simp only [henr] at h
    cases hsch : db.schemes.find? (fun s => s.scheme_id == enr.scheme_id) with
    | none => rw [hsch] at h; exact absurd h (by simp)
    | some s =>
      simp only [hsch] at h
      by_cases hgen : 0 < (db.enrollment_fees.filter fun f => f.enrollment_id == e).length ∨
          0 < (db.payment_installments.filter fun i => i.enrollment_id == e).length
      · rw [if_pos hgen] at h; exact absurd h (by simp)
      · rw [if_neg hgen] at h
        by_cases hle : round2 (s.amount - jsOrQ s.discount 0) ≤ 0
        · rw [if_pos hle] at h; exact absurd h (by simp)
        · rw [if_neg hle] at h
          obtain ⟨c1, c2, c3, c4⟩ := initializeAccountBalanceRpc_components db enr.student_id
            (round2 (s.amount - jsOrQ s.discount 0))
          by_cases hful : s.scheme_type = "full_payment"
          · rw [if_pos hful] at h
            rw [Prod.mk.injEq] at h
            obtain ⟨-, hdb⟩ := h
            subst hdb
            refine ⟨⟨enr, rfl, s, hsch⟩, c1, c2, ?_⟩
            show 0 < (List.filter _ (_ ++ _)).length
            rw [List.filter_append]
            simp [c3]
          · rw [if_neg hful] at h
            by_cases hinst : s.scheme_type = "installment"
            · rw [if_pos hinst] at h
              rw [Prod.mk.injEq] at h
              obtain ⟨-, hdb⟩ := h
              subst hdb
              refine ⟨⟨enr, rfl, s, hsch⟩, c1, c2, ?_⟩
              show 0 < (List.filter _ (_ ++ _)).length
              rw [List.filter_append]
              simp [c3]
            · rw [if_neg hinst] at h; exact absurd h (by simp)

/-- C5: billing generation is not idempotent and fails loudly on
repeat: whenever a generateBilling call succeeds, running it again for
the same enrollment id throws the Billing-already-generated conflict,
the route surfaces it as HTTP 400, and the ledger state produced by the
first call is left completely unchanged. -/
theorem generateBilling_conflict_on_repeat {db : DB} {now1 : JSDate} {e : Nat}
    {r : BillingResult} {db1 : DB} (now2 : JSDate)
    (h : generateBilling db now1 e = (.ok r, db1)) :
    generateBilling db1 now2 e =
      (.error "Billing already generated for this enrollment", db1) ∧
    generateBillingRoute db1 now2 (some e) = (400, db1) := by
  obtain ⟨⟨enr, henr, s, hsch⟩, he1, hs1, hfee⟩ := generateBilling_ok_facts h
  have h2 : generateBilling db1 now2 e =
      (.error "Billing already generated for this enrollment", db1) := by
    unfold generateBilling
    rw [he1, hs1]
    simp only [henr, hsch]
    rw [if_pos (Or.inl hfee)]
  refine ⟨h2, ?_⟩
  unfold generateBillingRoute
  simp only [h2]
  rw [if_pos (by decide)]

/-- An enrollment on a full-payment scheme with no billing yet. -/
def dbFullScheme : DB :=
  { enrollments := [{ enrollment_id := 1, student_id := 7, program_id := 1,
                      semester_id := 1, scheme_id := 3, status := "Pending" }],
    schemes := [{ scheme_id := 3, scheme_name := "Plan F", scheme_type := "full_payment",
                  amount := 100, downpayment := none, monthly_payment := none,
                  months := none, discount := none }],
    accounts := [], payments := [], payment_transactions := [],
    account_transactions := [], enrollment_fees := [], payment_installments := [] }

/-- The same ledger after one successful generateBilling run. -/
def dbFullBilled : DB :=
  { enrollments := [{ enrollment_id := 1, student_id := 7, program_id := 1,
                      semester_id := 1, scheme_id := 3, status := "Pending" }],
    schemes := [{ scheme_id := 3, scheme_name := "Plan F", scheme_type := "full_payment",
                  amount := 100, downpayment := none, monthly_payment := none,
                  months := none, discount := none }],
    accounts := [{ account_id := 1, student_id := 7, total_balance := 100 }],
    payments := [], payment_transactions := [], account_transactions := [],
    enrollment_fees := [{ fee_id := 1, enrollment_id := 1, fee_type := "Tuition",
                          description := "Full Payment - Plan F", amount := 100,
                          is_paid := false, paid_at := none }],
    payment_installments := [] }

theorem generateBilling_conflict_on_repeat_witness :
    generateBilling dbFullBilled tNow 1 =
      (.error "Billing already generated for this enrollment", dbFullBilled) ∧
    generateBillingRoute dbFullBilled tNow (some 1) = (400, dbFullBilled) := by
  have hfirst : generateBilling dbFullScheme tNow 1 =
      (.ok { billing_type := "full_payment", account_id := 1, total_amount := 100,
             downpayment := 0, monthly_payment := 0, number_of_months := 0,
             warned := false },
       dbFullBilled) := by
    norm_num [generateBilling, dbFullScheme, dbFullBilled, tNow, initializeAccountBalanceRpc,
      nextFeeId, nextAccountId, nextInstallmentId, jsOrQ, round2, updateWhere, List.find?]
    decide
  exact generateBilling_conflict_on_repeat tNow hfirst

/-- C7: checkout amount determination.  With the enrollment, its scheme
and the student account all present: a full-payment scheme charges the
rounded sum of the unpaid fees and fails when none remain; an
installment scheme charges the downpayment fee while it is unpaid and
otherwise the pending installment with the lowest installment_number,
failing when none remain; in every branch the amount is rounded to two
decimals and a rounded amount of zero or less fails. -/
theorem createCheckoutAmount_spec (db : DB) (e : Nat) (enr : Enrollment)
    (s : TuitionScheme) (a : Account)
    (henr : db.enrollments.find? (fun x => x.enrollment_id == e) = some enr)
    (hsch : db.schemes.find? (fun x => x.scheme_id == enr.scheme_id) = some s)
    (ha : db.accounts.find? (fun x => x.student_id == enr.student_id) = some a) :
    (s.scheme_type = "full_payment" →
      (db.enrollment_fees.filter (fun f => f.enrollment_id == e && !f.is_paid) = [] →
        createCheckoutAmount db e =
          .error "No unpaid fees found. All payments completed or billing not generated.") ∧
      (db.enrollment_fees.filter (fun f => f.enrollment_id == e && !f.is_paid) ≠ [] →
        (0 < round2 ((db.enrollment_fees.filter (fun f => f.enrollment_id == e && !f.is_paid)).foldl
            (fun acc f => acc + f.amount) 0) →
          createCheckoutAmount db e =
            .ok (round2 ((db.enrollment_fees.filter (fun f => f.enrollment_id == e && !f.is_paid)).foldl
              (fun acc f => acc + f.amount) 0), "full_payment")) ∧
        (round2 ((db.enrollment_fees.filter (fun f => f.enrollment_id == e && !f.is_paid)).foldl
            (fun acc f => acc + f.amount) 0) ≤ 0 →
          createCheckoutAmount db e = .error "Invalid payment amount"))) ∧
    (s.scheme_type = "installment" →
      (db.enrollment_fees.find? (fun f => f.enrollment_id == e && f.fee_type == "Downpayment") = none →
        createCheckoutAmount db e = .error "Billing not generated. Please generate billing first.") ∧
      (∀ dfee, db.enrollment_fees.find?
          (fun f => f.enrollment_id == e && f.fee_type == "Downpayment") = some dfee →
        (dfee.is_paid = false →
          (0 < round2 dfee.amount →
            createCheckoutAmount db e = .ok (round2 dfee.amount, "downpayment")) ∧
          (round2 dfee.amount ≤ 0 →
            createCheckoutAmount db e = .error "Invalid payment amount")) ∧
        (dfee.is_paid = true →
          (db.payment_installments.filter (fun i => i.enrollment_id == e && i.status == "pending") = [] →
            createCheckoutAmount db e = .error "No pending installments found. All payments completed.") ∧
          (db.payment_installments.filter (fun i => i.enrollment_id == e && i.status == "pending") ≠ [] →
            ∃ inst ∈ db.payment_installments, inst.enrollment_id = e ∧ inst.status = "pending" ∧
              (∀ x ∈ db.payment_installments, x.enrollment_id = e → x.status = "pending" →
                inst.installment_number ≤ x.installment_number) ∧
              (0 < round2 inst.amount →
                createCheckoutAmount db e = .ok (round2 inst.amount, "installment")) ∧
              (round2 inst.amount ≤ 0 →
                createCheckoutAmount db e = .error "Invalid payment amount"))))) := by
  constructor
  · intro hful
    constructor
    · intro hempty
      simp [createCheckoutAmount, henr, hsch, ha, hful, hempty]
    · intro hne
      have hlen : ¬ ((db.enrollment_fees.filter
          (fun f => f.enrollment_id == e && !f.is_paid)).length = 0) := by
        simpa [List.length_eq_zero] using hne
      constructor
      · intro hpos
        simp only [createCheckoutAmount, henr, hsch, ha, hful, reduceIte]
        rw [if_neg hlen]
        dsimp only
        rw [if_neg (not_le.mpr hpos)]
      · intro hle
        simp only [createCheckoutAmount, henr, hsch, ha, hful, reduceIte]
        rw [if_neg hlen]
        dsimp only
        rw [if_pos hle]
  · intro hinst
    constructor
    · intro hnone
      simp [createCheckoutAmount, henr, hsch, ha, hinst, hnone]
    · intro dfee hdfee
      constructor
      · intro hunpaid
        constructor
        · intro hpos
          simp only [createCheckoutAmount, henr, hsch, ha, hinst, hdfee, hunpaid,
            Bool.not_false, String.reduceEq, reduceIte]
          rw [if_neg (not_le.mpr hpos)]
        · intro hle
          simp only [createCheckoutAmount, henr, hsch, ha, hinst, hdfee, hunpaid,
            Bool.not_false, String.reduceEq, reduceIte]
          rw [if_pos hle]
      · intro hpaid
        constructor
        · intro hempty
          simp [createCheckoutAmount, henr, hsch, ha, hinst, hdfee, hpaid, hempty, minByKey]
        · intro hne
          obtain ⟨m, hm⟩ := @minByKey_isSome_of_ne_nil Installment
            (fun i => i.installment_number)
            (db.payment_installments.filter (fun i => i.enrollment_id == e && i.status == "pending"))
            hne
          obtain ⟨hmemf, hminf⟩ := minByKey_spec hm
          obtain ⟨hmem, hpred⟩ := List.mem_filter.mp hmemf
          rw [Bool.and_eq_true, beq_iff_eq, beq_iff_eq] at hpred
          refine ⟨m, hmem, hpred.1, hpred.2, ?_, ?_, ?_⟩
          · intro x hx hxe hxs
            exact hminf x (by
              rw [List.mem_filter]
              exact ⟨hx, by rw [Bool.and_eq_true, beq_iff_eq, beq_iff_eq]; exact ⟨hxe, hxs⟩⟩)
          · intro hpos
            simp only [createCheckoutAmount, henr, hsch, ha, hinst, hdfee, hpaid, hm,
              Bool.not_true, Bool.false_eq_true, if_false, String.reduceEq, reduceIte]
            rw [if_neg (not_le.mpr hpos)]
          · intro hle
            simp only [createCheckoutAmount, henr, hsch, ha, hinst, hdfee, hpaid, hm,
              Bool.not_true, Bool.false_eq_true, if_false, String.reduceEq, reduceIte]
            rw [if_pos hle]

/-- Named rows of the billed full-payment fixture. -/
def enrFull : Enrollment :=
  { enrollment_id := 1, student_id := 7, program_id := 1, semester_id := 1,
    scheme_id := 3, status := "Pending" }

def schemeFull : TuitionScheme :=
  { scheme_id := 3, scheme_name := "Plan F", scheme_type := "full_payment",
    amount := 100, downpayment := none, monthly_payment := none,
    months := none, discount := none }

def acctFull : Account := { account_id := 1, student_id := 7, total_balance := 100 }

theorem createCheckoutAmount_spec_witness :
    (schemeFull.scheme_type = "full_payment" →
      (dbFullBilled.enrollment_fees.filter (fun f => f.enrollment_id == 1 && !f.is_paid) = [] →
        createCheckoutAmount dbFullBilled 1 =
          .error "No unpaid fees found. All payments completed or billing not generated.") ∧
      (dbFullBilled.enrollment_fees.filter (fun f => f.enrollment_id == 1 && !f.is_paid) ≠ [] →
        (0 < round2 ((dbFullBilled.enrollment_fees.filter (fun f => f.enrollment_id == 1 && !f.is_paid)).foldl
            (fun acc f => acc + f.amount) 0) →
          createCheckoutAmount dbFullBilled 1 =
            .ok (round2 ((dbFullBilled.enrollment_fees.filter (fun f => f.enrollment_id == 1 && !f.is_paid)).foldl
              (fun acc f => acc + f.amount) 0), "full_payment")) ∧
        (round2 ((dbFullBilled.enrollment_fees.filter (fun f => f.enrollment_id == 1 && !f.is_paid)).foldl
            (fun acc f => acc + f.amount) 0) ≤ 0 →
          createCheckoutAmount dbFullBilled 1 = .error "Invalid payment amount"))) ∧
    (schemeFull.scheme_type = "installment" →
      (dbFullBilled.enrollment_fees.find? (fun f => f.enrollment_id == 1 && f.fee_type == "Downpayment") = none →
        createCheckoutAmount dbFullBilled 1 = .error "Billing not generated. Please generate billing first.") ∧
      (∀ dfee, dbFullBilled.enrollment_fees.find?
          (fun f => f.enrollment_id == 1 && f.fee_type == "Downpayment") = some dfee →
        (dfee.is_paid = false →
          (0 < round2 dfee.amount →
            createCheckoutAmount dbFullBilled 1 = .ok (round2 dfee.amount, "downpayment")) ∧
          (round2 dfee.amount ≤ 0 →
            createCheckoutAmount dbFullBilled 1 = .error "Invalid payment amount")) ∧
        (dfee.is_paid = true →
          (dbFullBilled.payment_installments.filter (fun i => i.enrollment_id == 1 && i.status == "pending") = [] →
            createCheckoutAmount dbFullBilled 1 = .error "No pending installments found. All payments completed.") ∧
          (dbFullBilled.payment_installments.filter (fun i => i.enrollment_id == 1 && i.status == "pending") ≠ [] →
            ∃ inst ∈ dbFullBilled.payment_installments, inst.enrollment_id = 1 ∧ inst.status = "pending" ∧
              (∀ x ∈ dbFullBilled.payment_installments, x.enrollment_id = 1 → x.status = "pending" →
                inst.installment_number ≤ x.installment_number) ∧
              (0 < round2 inst.amount →
                createCheckoutAmount dbFullBilled 1 = .ok (round2 inst.amount, "installment")) ∧
              (round2 inst.amount ≤ 0 →
                createCheckoutAmount dbFullBilled 1 = .error "Invalid payment amount"))))) :=
  createCheckoutAmount_spec dbFullBilled 1 enrFull schemeFull acctFull
    (by decide) (by decide) (by decide)

theorem generateBilling_installment_shape {db : DB} {now : JSDate} {e : Nat}
    {enr : Enrollment} {s : TuitionScheme}
    (henr : db.enrollments.find? (fun x => x.enrollment_id == e) = some enr)
    (hsch : db.schemes.find? (fun x => x.scheme_id == enr.scheme_id) = some s)
    (hty : s.scheme_type = "installment")
    (hfees : (db.enrollment_fees.filter fun f => f.enrollment_id == e) = [])
    (hinst : (db.payment_installments.filter fun i => i.enrollment_id == e) = [])
    (hpos : ¬ round2 (s.amount - jsOrQ s.discount 0) ≤ 0) :
    ∃ db1 base fid,
      generateBilling db now e =
        (.ok { billing_type := "installment",
               account_id := (initializeAccountBalanceRpc db enr.student_id
                 (round2 (s.amount - jsOrQ s.discount 0))).1,
               total_amount := round2 (s.amount - jsOrQ s.discount 0),
               downpayment := jsOrQ s.downpayment 0,
               monthly_payment := jsOrQ s.monthly_payment 0,
               number_of_months := jsOrNat s.months 4,
               warned := decide
                 (|round2 (jsOrQ s.downpayment 0 + jsOrQ s.monthly_payment 0 * (jsOrNat s.months 4 : ℕ)) -
                   round2 (s.amount - jsOrQ s.discount 0)| > 1 / 100) }, db1) ∧
      (db1.enrollment_fees.filter fun f => f.enrollment_id == e) =
        [{ fee_id := fid, enrollment_id := e, fee_type := "Downpayment",
           description := "Downpayment - " ++ s.scheme_name,
           amount := jsOrQ s.downpayment 0, is_paid := false, paid_at := none }] ∧
      (db1.payment_installments.filter fun i => i.enrollment_id == e) =
        (List.range (jsOrNat s.months 4)).map (fun i =>
          { installment_id := base + i, enrollment_id := e, installment_number := i + 1,
            amount := jsOrQ s.monthly_payment 0, due_date := addMonths now (i + 1),
            status := "pending", paid_at := none, payment_id := none }) := by
  have hgen : ¬ (0 < (db.enrollment_fees.filter fun f => f.enrollment_id == e).length ∨
      0 < (db.payment_installments.filter fun i => i.enrollment_id == e).length) := by
    rw [hfees, hinst]
    simp
  obtain ⟨c1, c2, c3, c4⟩ := initializeAccountBalanceRpc_components db enr.student_id
    (round2 (s.amount - jsOrQ s.discount 0))
  refine ⟨{ (initializeAccountBalanceRpc db enr.student_id
        (round2 (s.amount - jsOrQ s.discount 0))).2 with
      enrollment_fees := (initializeAccountBalanceRpc db enr.student_id
          (round2 (s.amount - jsOrQ s.discount 0))).2.enrollment_fees ++
        [{ fee_id := nextFeeId (initializeAccountBalanceRpc db enr.student_id
              (round2 (s.amount - jsOrQ s.discount 0))).2,
           enrollment_id := e, fee_type := "Downpayment",
           description := "Downpayment - " ++ s.scheme_name,
           amount := jsOrQ s.downpayment 0, is_paid := false, paid_at := none }],
      payment_installments := (initializeAccountBalanceRpc db enr.student_id
          (round2 (s.amount - jsOrQ s.discount 0))).2.payment_installments ++
        (List.range (jsOrNat s.months 4)).map (fun i =>
          { installment_id := nextInstallmentId (initializeAccountBalanceRpc db enr.student_id
                (round2 (s.amount - jsOrQ s.discount 0))).2 + i,
            enrollment_id := e, installment_number := i + 1,
            amount := jsOrQ s.monthly_payment 0, due_date := addMonths now (i + 1),
            status := "pending", paid_at := none, payment_id := none }) },
    nextInstallmentId (initializeAccountBalanceRpc db enr.student_id
      (round2 (s.amount - jsOrQ s.discount 0))).2,
    nextFeeId (initializeAccountBalanceRpc db enr.student_id
      (round2 (s.amount - jsOrQ s.discount 0))).2, ?_, ?_, ?_⟩
  · unfold generateBilling
    simp only [henr, hsch, hty, String.reduceEq, reduceIte]
    rw [if_neg hgen, if_neg hpos]
    rfl
  · dsimp only
    rw [List.filter_append, c3, hfees]
    simp
  · dsimp only
    rw [List.filter_append, c4, hinst]
    rw [List.nil_append, List.filter_eq_self.mpr]
    intro y hy
    rw [List.mem_map] at hy
    obtain ⟨i, hi, rfl⟩ := hy
    simp

theorem daysInMonth_ge_28 (am : Nat) : 28 ≤ daysInMonth am := by
  unfold daysInMonth
  dsimp only
  split
  · split <;> omega
  · split <;> omega

theorem addMonths_of_day_le_28 (d : JSDate) (i : Nat) (h : d.day ≤ 28) :
    addMonths d i = { absMonth := d.absMonth + i, day := d.day } := by
  unfold addMonths normalizeDate
  dsimp only
  rw [if_neg]
  have := daysInMonth_ge_28 (d.absMonth + i)
  omega

/-- C8 (amended): for an installment scheme, generateBilling creates
exactly one Downpayment fee and months-many installment rows numbered
1..N in order, the warning flag records an installment-total mismatch
of more than one cent without failing generation, and, whenever the
generation day-of-month is at most 28, the due dates fall on the same
day of the following months, one calendar month apart starting one
month after generation.  On later days of the month the JS setMonth
overflow shifts individual due dates into the next month. -/
theorem generateBilling_installment_billing_shape {db : DB} {now : JSDate} {e : Nat}
    {enr : Enrollment} {s : TuitionScheme}
    (henr : db.enrollments.find? (fun x => x.enrollment_id == e) = some enr)
    (hsch : db.schemes.find? (fun x => x.scheme_id == enr.scheme_id) = some s)
    (hty : s.scheme_type = "installment")
    (hfees : (db.enrollment_fees.filter fun f => f.enrollment_id == e) = [])
    (hinst : (db.payment_installments.filter fun i => i.enrollment_id == e) = [])
    (hpos : ¬ round2 (s.amount - jsOrQ s.discount 0) ≤ 0)
    (hday : now.day ≤ 28) :
    ∃ db1 base fid,
      generateBilling db now e =
        (.ok { billing_type := "installment",
               account_id := (initializeAccountBalanceRpc db enr.student_id
                 (round2 (s.amount - jsOrQ s.discount 0))).1,
               total_amount := round2 (s.amount - jsOrQ s.discount 0),
               downpayment := jsOrQ s.downpayment 0,
               monthly_payment := jsOrQ s.monthly_payment 0,
               number_of_months := jsOrNat s.months 4,
               warned := decide
                 (|round2 (jsOrQ s.downpayment 0 + jsOrQ s.monthly_payment 0 * (jsOrNat s.months 4 : ℕ)) -
                   round2 (s.amount - jsOrQ s.discount 0)| > 1 / 100) }, db1) ∧
      (db1.enrollment_fees.filter fun f => f.enrollment_id == e) =
        [{ fee_id := fid, enrollment_id := e, fee_type := "Downpayment",
           description := "Downpayment - " ++ s.scheme_name,
           amount := jsOrQ s.downpayment 0, is_paid := false, paid_at := none }] ∧
      (db1.payment_installments.filter fun i => i.enrollment_id == e) =
        (List.range (jsOrNat s.months 4)).map (fun i =>
          { installment_id := base + i, enrollment_id := e, installment_number := i + 1,
            amount := jsOrQ s.monthly_payment 0,
            due_date := { absMonth := now.absMonth + (i + 1), day := now.day },
            status := "pending", paid_at := none, payment_id := none }) := by
  obtain ⟨db1, base, fid, h1, h2, h3⟩ :=
    generateBilling_installment_shape henr hsch hty hfees hinst hpos
  refine ⟨db1, base, fid, h1, h2, ?_⟩
  rw [h3]
  apply List.map_congr_left
  intro i hi
  rw [addMonths_of_day_le_28 now (i + 1) hday]

/-- Named rows of the two-month installment fixture. -/
def enrJ : Enrollment :=
  { enrollment_id := 1, student_id := 7, program_id := 1, semester_id := 1,
    scheme_id := 4, status := "Pending" }

def schemeJ : TuitionScheme :=
  { scheme_id := 4, scheme_name := "Plan J", scheme_type := "installment",
    amount := 5000, downpayment := some 1000, monthly_payment := some 2000,
    months := some 2, discount := none }

/-- An enrollment on a two-month installment scheme with no billing yet. -/
def dbJanScheme : DB :=
  { enrollments := [{ enrollment_id := 1, student_id := 7, program_id := 1,
                      semester_id := 1, scheme_id := 4, status := "Pending" }],
    schemes := [{ scheme_id := 4, scheme_name := "Plan J", scheme_type := "installment",
                  amount := 5000, downpayment := some 1000, monthly_payment := some 2000,
                  months := some 2, discount := none }],
    accounts := [], payments := [], payment_transactions := [],
    account_transactions := [], enrollment_fees := [], payment_installments := [] }

/-- The 31st of January 2025 as an absolute-month date. -/
def dJan31 : JSDate := { absMonth := 2025 * 12, day := 31 }

/-- C8 counterexample: generating installment billing on 31 January 2025
gives installment 1 a due date of 3 March 2025 (absolute month 24302 =
March, day 3, through the JS setMonth overflow of 31 February) and
installment 2 a due date of 31 March 2025: the two due dates fall in
the same calendar month and the first is two months after
generation, so the claim that due dates are one calendar month apart
starting one month after generation time is false. -/
theorem generateBilling_due_dates_not_monthly_on_jan31 :
    (generateBilling dbJanScheme dJan31 1).2.payment_installments.map
      (fun i => (i.installment_number, i.due_date)) =
      [(1, { absMonth := 24302, day := 3 }), (2, { absMonth := 24302, day := 31 })] := by
  norm_num [generateBilling, dbJanScheme, dJan31, initializeAccountBalanceRpc,
    nextFeeId, nextAccountId, nextInstallmentId, jsOrQ, jsOrNat, round2,
    addMonths, normalizeDate, daysInMonth, isLeap, updateWhere, List.find?,
    List.range, List.range.loop]
  simp

set_option maxHeartbeats 1000000 in
theorem generateBilling_installment_billing_shape_witness :
    ∃ db1 base fid,
      generateBilling dbJanScheme tNow 1 =
        (.ok { billing_type := "installment",
               account_id := (initializeAccountBalanceRpc dbJanScheme 7
                 (round2 ((5000 : ℚ) - jsOrQ none 0))).1,
               total_amount := round2 ((5000 : ℚ) - jsOrQ none 0),
               downpayment := jsOrQ (some (1000 : ℚ)) 0,
               monthly_payment := jsOrQ (some (2000 : ℚ)) 0,
               number_of_months := jsOrNat (some 2) 4,
               warned := decide
                 (|round2 (jsOrQ (some (1000 : ℚ)) 0 + jsOrQ (some (2000 : ℚ)) 0 * (jsOrNat (some 2) 4 : ℕ)) -
                   round2 ((5000 : ℚ) - jsOrQ none 0)| > 1 / 100) }, db1) ∧
      (db1.enrollment_fees.filter fun f => f.enrollment_id == 1) =
        [{ fee_id := fid, enrollment_id := 1, fee_type := "Downpayment",
           description := "Downpayment - " ++ "Plan J",
           amount := jsOrQ (some (1000 : ℚ)) 0, is_paid := false, paid_at := none }] ∧
      (db1.payment_installments.filter fun i => i.enrollment_id == 1) =
        (List.range (jsOrNat (some 2) 4)).map (fun i =>
          { installment_id := base + i, enrollment_id := 1, installment_number := i + 1,
            amount := jsOrQ (some (2000 : ℚ)) 0,
            due_date := { absMonth := tNow.absMonth + (i + 1), day := tNow.day },
            status := "pending", paid_at := none, payment_id := none }) :=
  @generateBilling_installment_billing_shape dbJanScheme tNow 1 enrJ schemeJ
    (by decide) (by decide) (by decide) (by decide) (by decide)
    (by norm_num [round2, jsOrQ, schemeJ]) (by decide)

/-- C10: in generateBilling for an installment scheme whose months,
downpayment and monthly_payment columns are all missing, the JS
falsy-default idiom substitutes months = 4 and amounts = 0, so
generation still succeeds with one zero-amount Downpayment fee and four
zero-amount installment rows numbered 1..4 instead of failing. -/
theorem generateBilling_defaults_missing_installment_fields {db : DB}
    {now : JSDate} {e : Nat} {enr : Enrollment} {s : TuitionScheme}
    (henr : db.enrollments.find? (fun x => x.enrollment_id == e) = some enr)
    (hsch : db.schemes.find? (fun x => x.scheme_id == enr.scheme_id) = some s)
    (hty : s.scheme_type = "installment")
    (hm : s.months = none) (hd : s.downpayment = none) (hmp : s.monthly_payment = none)
    (hfees : (db.enrollment_fees.filter fun f => f.enrollment_id == e) = [])
    (hinst : (db.payment_installments.filter fun i => i.enrollment_id == e) = [])
    (hpos : ¬ round2 (s.amount - jsOrQ s.discount 0) ≤ 0) :
    ∃ db1 r base fid,
      generateBilling db now e = (.ok r, db1) ∧
      r.number_of_months = 4 ∧ r.downpayment = 0 ∧ r.monthly_payment = 0 ∧
      (db1.enrollment_fees.filter fun f => f.enrollment_id == e) =
        [{ fee_id := fid, enrollment_id := e, fee_type := "Downpayment",
           description := "Downpayment - " ++ s.scheme_name,
           amount := 0, is_paid := false, paid_at := none }] ∧
      (db1.payment_installments.filter fun i => i.enrollment_id == e) =
        (List.range 4).map (fun i =>
          { installment_id := base + i, enrollment_id := e, installment_number := i + 1,
            amount := 0, due_date := addMonths now (i + 1),
            status := "pending", paid_at := none, payment_id := none }) := by
  obtain ⟨db1, base, fid, h1, h2, h3⟩ :=
    @generateBilling_installment_shape db now e enr s henr hsch hty hfees hinst hpos
  have hdq : jsOrQ s.downpayment 0 = 0 := by rw [hd]; rfl
  have hmq : jsOrQ s.monthly_payment 0 = 0 := by rw [hmp]; rfl
  have hmn : jsOrNat s.months 4 = 4 := by rw [hm]; rfl
  rw [hdq, hmq, hmn] at h1
  rw [hdq] at h2
  rw [hmq, hmn] at h3
  exact ⟨db1, _, base, fid, h1, rfl, rfl, rfl, h2, h3⟩

/-- Named rows of the installment fixture with missing numeric columns. -/
def enrN : Enrollment :=
  { enrollment_id := 1, student_id := 7, program_id := 1, semester_id := 1,
    scheme_id := 5, status := "Pending" }

def schemeN : TuitionScheme :=
  { scheme_id := 5, scheme_name := "Plan N", scheme_type := "installment",
    amount := 800, downpayment := none, monthly_payment := none,
    months := none, discount := none }

/-- An enrollment on an installment scheme whose months, downpayment and
monthly_payment columns are all missing. -/
def dbNoFieldsScheme : DB :=
  { enrollments := [enrN], schemes := [schemeN],
    accounts := [], payments := [], payment_transactions := [],
    account_transactions := [], enrollment_fees := [], payment_installments := [] }

theorem generateBilling_defaults_missing_installment_fields_witness :
    ∃ db1 r base fid,
      generateBilling dbNoFieldsScheme tNow 1 = (.ok r, db1) ∧
      r.number_of_months = 4 ∧ r.downpayment = 0 ∧ r.monthly_payment = 0 ∧
      (db1.enrollment_fees.filter fun f => f.enrollment_id == 1) =
        [{ fee_id := fid, enrollment_id := 1, fee_type := "Downpayment",
           description := "Downpayment - " ++ "Plan N",
           amount := 0, is_paid := false, paid_at := none }] ∧
      (db1.payment_installments.filter fun i => i.enrollment_id == 1) =
        (List.range 4).map (fun i =>
          { installment_id := base + i, enrollment_id := 1, installment_number := i + 1,
            amount := 0, due_date := addMonths tNow (i + 1),
            status := "pending", paid_at := none, payment_id := none }) :=
  @generateBilling_defaults_missing_installment_fields dbNoFieldsScheme tNow 1 enrN schemeN
    (by decide) (by decide) (by decide) (by decide) (by decide) (by decide)
    (by decide) (by decide) (by norm_num [round2, jsOrQ, schemeN])
